import Mathlib

/-!
Shallow embedding of `src/roadpayment/payment.py` (BlackRoad-OS/roadpayment).

Conventions of the embedding:
- Python `Decimal` amounts are modelled as `Rat` (exact arithmetic).
- Python `datetime` values are modelled as `Int` timestamps in seconds;
  `timedelta(days = n)` is `n * 86400` seconds, `timedelta(weeks = n)` is
  `7 * n * 86400` seconds.
- Python dicts keyed by strings are modelled as association lists in
  insertion order; inserting an existing key replaces its value in place,
  a new key is appended (matching CPython dict semantics).
- `raise ValueError(msg)` is modelled as `Except.error msg`; `return None`
  as `Option.none`.
- The async provider is modelled as an explicit function argument returning
  the `(success, result)` pair the awaited call would produce.
- Event emission to hooks is modelled two ways, matching the two concerns in
  the spec: operations produce a trace of `(event name, payload)` pairs in
  emission order, and `emit` models the handler-invocation loop of `_emit`
  with its per-handler exception isolation.
- Python truthiness tests on optional strings (`payment_method_id or ...`,
  `if not pm_id`, `if customer_id:`) are modelled exactly: `None` and the
  empty string are falsy.
-/

namespace RoadPayment

inductive Currency
  | USD | EUR | GBP | BTC | ETH
deriving DecidableEq, Repr

inductive PaymentStatus
  | pending | processing | completed | failed | refunded | cancelled
deriving DecidableEq, Repr

inductive PaymentMethod
  | card | bank | wallet | crypto
deriving DecidableEq, Repr

inductive SubscriptionStatus
  | active | paused | cancelled | expired
deriving DecidableEq, Repr

inductive BillingInterval
  | daily | weekly | monthly | yearly
deriving DecidableEq, Repr

/-- String-keyed mapping with string values, as an association list in
insertion order (models the Python dicts used for metadata and provider
results). -/
abbrev Dict := List (String × String)

/-- Lookup in an association-list dict: value of the first entry with the
given key (models `d.get(k)` / `d[k]`). -/
def dictGet? (m : Dict) (k : String) : Option String :=
  (m.find? (fun p => p.1 = k)).map (fun p => p.2)

/-- Insert into an association-list dict with CPython semantics: an existing
key is updated in place, a new key is appended. -/
def dictSet (m : Dict) (k : String) (v : String) : Dict :=
  if m.any (fun p => p.1 = k) then
    m.map (fun p => if p.1 = k then (k, v) else p)
  else
    m ++ [(k, v)]

/-- Right-biased dict merge: `dictUpdate m r` models Python `m.update(r)`,
folding each entry of `r` into `m`. -/
def dictUpdate (m r : Dict) : Dict :=
  r.foldl (fun acc kv => dictSet acc kv.1 kv.2) m

/-- Truthiness of an optional string in Python: `None` and `""` are falsy,
every other string is truthy. -/
def truthyStr : Option String → Bool
  | none => false
  | some s => decide (s ≠ "")

/-- Money value: exact decimal amount paired with a currency
(`Money` dataclass, payment.py lines 59-75). -/
structure Money where
  amount : Rat
  currency : Currency
deriving DecidableEq, Repr

/-- Money addition (`Money.__add__`, payment.py lines 64-67): raises
`ValueError("Currency mismatch")` on differing currencies, otherwise returns
a fresh Money with the summed amount and the shared currency. -/
def Money.add (a b : Money) : Except String Money :=
  if a.currency = b.currency then
    Except.ok { amount := a.amount + b.amount, currency := a.currency }
  else
    Except.error "Currency mismatch"

/-- Money subtraction (`Money.__sub__`, payment.py lines 69-72): raises
`ValueError("Currency mismatch")` on differing currencies, otherwise returns
a fresh Money with the differenced amount and the shared currency. -/
def Money.subtract (a b : Money) : Except String Money :=
  if a.currency = b.currency then
    Except.ok { amount := a.amount - b.amount, currency := a.currency }
  else
    Except.error "Currency mismatch"

/-- Seconds in `timedelta(days = d)`. -/
def timedeltaDays (d : Int) : Int := d * 86400

/-- Seconds in `timedelta(weeks = w)`. -/
def timedeltaWeeks (w : Int) : Int := 7 * w * 86400

/-- Billing-period end computation
(`PaymentProcessor._calculate_period_end`, payment.py lines 334-342):
daily adds `count` days, weekly adds `count` weeks, monthly adds
`30 * count` days, and the default branch (yearly) adds `365 * count`
days. -/
def calculate_period_end (start : Int) (interval : BillingInterval) (count : Int) : Int :=
  if interval = BillingInterval.daily then
    start + timedeltaDays count
  else if interval = BillingInterval.weekly then
    start + timedeltaWeeks count
  else if interval = BillingInterval.monthly then
    start + timedeltaDays (30 * count)
  else
    start + timedeltaDays (365 * count)

/-- Stored payment-method record (`PaymentMethodInfo` dataclass,
payment.py lines 78-86). -/
structure PaymentMethodInfo where
  id : String
  type : PaymentMethod
  last_four : String
  brand : String
  exp_month : Int
  exp_year : Int
  metadata : Dict
deriving DecidableEq, Repr

/-- Customer record (`Customer` dataclass, payment.py lines 89-97). -/
structure Customer where
  id : String
  email : String
  name : String
  payment_methods : List PaymentMethodInfo
  default_payment_method : Option String
  metadata : Dict
  created_at : Int
deriving DecidableEq, Repr

/-- Payment record (`Payment` dataclass, payment.py lines 100-111). -/
structure Payment where
  id : String
  customer_id : String
  amount : Money
  status : PaymentStatus
  payment_method_id : Option String
  description : String
  metadata : Dict
  created_at : Int
  completed_at : Option Int
  error : Option String
deriving DecidableEq, Repr

/-- Refund record (`Refund` dataclass, payment.py lines 114-121). -/
structure Refund where
  id : String
  payment_id : String
  amount : Money
  reason : String
  status : PaymentStatus
  created_at : Int
deriving DecidableEq, Repr

/-- Billing plan record (`Plan` dataclass, payment.py lines 124-133). -/
structure Plan where
  id : String
  name : String
  amount : Money
  interval : BillingInterval
  interval_count : Int
  trial_days : Int
  features : List String
  metadata : Dict
deriving DecidableEq, Repr

/-- Subscription record (`Subscription` dataclass, payment.py
lines 136-146). -/
structure Subscription where
  id : String
  customer_id : String
  plan_id : String
  status : SubscriptionStatus
  current_period_start : Int
  current_period_end : Option Int
  trial_end : Option Int
  cancelled_at : Option Int
  metadata : Dict
deriving DecidableEq, Repr

/-- Entity snapshot passed to event handlers at emission time. -/
inductive EventPayload
  | payment (p : Payment)
  | refund (r : Refund)
  | subscription (s : Subscription)
deriving DecidableEq, Repr

/-- Emitted lifecycle event: event name paired with the entity snapshot the
handlers receive. -/
abbrev Event := String × EventPayload

/-- Id-keyed entity store in insertion order (models a Python dict mapping
id strings to entity records). -/
abbrev Store (α : Type) := List (String × α)

/-- Lookup an entity by id (models `d.get(k)`). -/
def storeGet? {α : Type} (m : Store α) (k : String) : Option α :=
  (m.find? (fun p => p.1 = k)).map (fun p => p.2)

/-- Register or replace an entity under an id, CPython dict semantics:
an existing key is updated in place, a new key is appended. -/
def storeSet {α : Type} (m : Store α) (k : String) (v : α) : Store α :=
  if m.any (fun p => p.1 = k) then
    m.map (fun p => if p.1 = k then (k, v) else p)
  else
    m ++ [(k, v)]

/-- The PaymentProcessor's owned entity maps
(`PaymentProcessor.__init__`, payment.py lines 168-180). -/
structure ProcState where
  customers : Store Customer
  payments : Store Payment
  refunds : Store Refund
  plans : Store Plan
  subscriptions : Store Subscription
deriving DecidableEq, Repr

/-- The freshly constructed processor: every entity map empty. -/
def initialState : ProcState :=
  { customers := [], payments := [], refunds := [], plans := [],
    subscriptions := [] }

/-- An event handler: receives the entity snapshot and either returns
normally or raises (modelled as `Except.error` carrying the exception
message). -/
abbrev Handler := EventPayload → Except String Unit

/-- One handler invocation inside `_emit`'s try/except: a raised exception
is caught and converted to a logged message (`some msg`), a normal return
logs nothing (`none`). -/
def runHandler (h : Handler) (data : EventPayload) : Option String :=
  match h data with
  | Except.ok _ => none
  | Except.error e => some e

/-- Event emission loop (`PaymentProcessor._emit`, payment.py
lines 186-191): each registered handler for the event is invoked in
registration order; a handler that raises is caught and logged, and the
loop continues with the remaining handlers. The returned list is the
per-handler log outcome, in invocation order. -/
def emit (handlers : List Handler) (data : EventPayload) : List (Option String) :=
  match handlers with
  | [] => []
  | h :: rest =>
    match h data with
    | Except.ok _ => none :: emit rest data
    | Except.error e => some e :: emit rest data

/-- Customer creation (`PaymentProcessor.create_customer`, payment.py
lines 193-202): builds the record with no payment methods and no default,
registers it, returns it. The fresh id is an explicit argument. -/
def create_customer (st : ProcState) (newId : String) (now : Int)
    (email name : String) (metadata : Dict) : ProcState × Customer :=
  let customer : Customer :=
    { id := newId, email := email, name := name, payment_methods := [],
      default_payment_method := none, metadata := metadata,
      created_at := now }
  ({ st with customers := storeSet st.customers newId customer }, customer)

/-- Payment-method registration (`PaymentProcessor.add_payment_method`,
payment.py lines 207-220): returns `none` for an unknown customer;
otherwise appends the new method to the customer's list and, when the
customer's current default is falsy (absent or empty), sets the new
method's id as the default. -/
def add_payment_method (st : ProcState) (newId : String)
    (customer_id : String) (method_type : PaymentMethod)
    (last_four brand : String) (exp_month exp_year : Int)
    (metadata : Dict) : ProcState × Option PaymentMethodInfo :=
  match storeGet? st.customers customer_id with
  | none => (st, none)
  | some customer =>
    let method : PaymentMethodInfo :=
      { id := newId, type := method_type, last_four := last_four,
        brand := brand, exp_month := exp_month, exp_year := exp_year,
        metadata := metadata }
    let customer1 : Customer :=
      { customer with
        payment_methods := customer.payment_methods ++ [method],
        default_payment_method :=
          if truthyStr customer.default_payment_method then
            customer.default_payment_method
          else some newId }
    ({ st with customers := storeSet st.customers customer_id customer1 },
     some method)

/-- Payment creation and charge (`PaymentProcessor.create_payment`,
payment.py lines 222-256). `charge` is the awaited provider call, returning
its `(success, result)` pair. Raises for an unknown customer and for a
falsy resolved payment-method id. Otherwise the record is created PENDING
(`payment.created` emitted with that snapshot), moved to PROCESSING, and
the provider charged; on success the status becomes COMPLETED with
`completed_at` stamped and the provider result merged into the metadata
(`payment.completed` emitted), on failure the status becomes FAILED with
`error` taken from the result's error key, defaulting to "Payment failed"
(`payment.failed` emitted). The final record is what the store holds. -/
def create_payment (charge : Customer → Money → String → Bool × Dict)
    (st : ProcState) (newId : String) (createdAt completedAt : Int)
    (customer_id : String) (amount : Rat) (currency : Currency)
    (payment_method_id : Option String) (description : String) :
    Except String (ProcState × List Event × Payment) :=
  match storeGet? st.customers customer_id with
  | none => Except.error "Customer not found"
  | some customer =>
    let pm_id := if truthyStr payment_method_id then payment_method_id
                 else customer.default_payment_method
    if truthyStr pm_id then
      let payment : Payment :=
        { id := newId, customer_id := customer_id,
          amount := { amount := amount, currency := currency },
          status := PaymentStatus.pending, payment_method_id := pm_id,
          description := description, metadata := [],
          created_at := createdAt, completed_at := none, error := none }
      let createdEvent : Event := ("payment.created", EventPayload.payment payment)
      let processing : Payment := { payment with status := PaymentStatus.processing }
      match charge customer processing.amount (pm_id.getD "") with
      | (true, result) =>
        let final : Payment :=
          { processing with
            status := PaymentStatus.completed,
            completed_at := some completedAt,
            metadata := dictUpdate processing.metadata result }
        Except.ok ({ st with payments := storeSet st.payments newId final },
          [createdEvent, ("payment.completed", EventPayload.payment final)],
          final)
      | (false, result) =>
        let final : Payment :=
          { processing with
            status := PaymentStatus.failed,
            error := some ((dictGet? result "error").getD "Payment failed") }
        Except.ok ({ st with payments := storeSet st.payments newId final },
          [createdEvent, ("payment.failed", EventPayload.payment final)],
          final)
    else Except.error "No payment method"

/-- Refund amount resolution, the expression
`Money(amount or payment.amount.amount, payment.amount.currency)` of
payment.py line 263: the argument when it is truthy (present and nonzero,
Python `Decimal(0)` being falsy), the payment's full amount otherwise,
always in the payment's currency. -/
def refundAmountOf (payment : Payment) (amount : Option Rat) : Money :=
  { amount :=
      match amount with
      | some a => if a = 0 then payment.amount.amount else a
      | none => payment.amount.amount,
    currency := payment.amount.currency }

/-- Refund creation (`PaymentProcessor.create_refund`, payment.py
lines 258-285). `refundCall` is the awaited provider call. Returns `none`
(state untouched, nothing emitted) when the payment id is unknown or the
payment is not COMPLETED. Otherwise the refund amount is the argument when
it is truthy (present and nonzero) and the payment's full amount otherwise,
always in the payment's currency; the refund is created PENDING
(`refund.created` emitted), the provider is invoked, and on success the
refund becomes COMPLETED and the payment REFUNDED (`refund.completed`
emitted) while on failure the refund becomes FAILED and the payment is left
untouched. -/
def create_refund (refundCall : String → Money → Bool × Dict)
    (st : ProcState) (newId : String) (createdAt : Int)
    (payment_id : String) (amount : Option Rat) (reason : String) :
    ProcState × List Event × Option Refund :=
  match storeGet? st.payments payment_id with
  | none => (st, [], none)
  | some payment =>
    if payment.status = PaymentStatus.completed then
      let refund_amount : Money := refundAmountOf payment amount
      let refund : Refund :=
        { id := newId, payment_id := payment_id, amount := refund_amount,
          reason := reason, status := PaymentStatus.pending,
          created_at := createdAt }
      let createdEvent : Event := ("refund.created", EventPayload.refund refund)
      match refundCall payment_id refund_amount with
      | (true, _result) =>
        let rfinal : Refund := { refund with status := PaymentStatus.completed }
        let pfinal : Payment := { payment with status := PaymentStatus.refunded }
        ({ st with refunds := storeSet st.refunds newId rfinal,
                   payments := storeSet st.payments payment_id pfinal },
         [createdEvent, ("refund.completed", EventPayload.refund rfinal)],
         some rfinal)
      | (false, _result) =>
        let rfinal : Refund := { refund with status := PaymentStatus.failed }
        ({ st with refunds := storeSet st.refunds newId rfinal },
         [createdEvent], some rfinal)
    else (st, [], none)

/-- Plan creation (`PaymentProcessor.create_plan`, payment.py
lines 287-297): pure record creation and registration. -/
def create_plan (st : ProcState) (newId : String) (name : String)
    (amount : Rat) (currency : Currency) (interval : BillingInterval)
    (interval_count trial_days : Int) (features : List String)
    (metadata : Dict) : ProcState × Plan :=
  let plan : Plan :=
    { id := newId, name := name,
      amount := { amount := amount, currency := currency },
      interval := interval, interval_count := interval_count,
      trial_days := trial_days, features := features, metadata := metadata }
  ({ st with plans := storeSet st.plans newId plan }, plan)

/-- Subscription creation (`PaymentProcessor.create_subscription`,
payment.py lines 299-322): returns `none` when the customer or the plan is
unknown; otherwise computes the period end via `calculate_period_end`, the
trial end when `trial_days` is truthy (nonzero), registers the ACTIVE
subscription and emits `subscription.created`. -/
def create_subscription (st : ProcState) (newId : String) (now : Int)
    (customer_id plan_id : String) :
    ProcState × List Event × Option Subscription :=
  match storeGet? st.customers customer_id, storeGet? st.plans plan_id with
  | some _customer, some plan =>
    let period_end := calculate_period_end now plan.interval plan.interval_count
    let trial_end := if plan.trial_days = 0 then none
                     else some (now + timedeltaDays plan.trial_days)
    let sub : Subscription :=
      { id := newId, customer_id := customer_id, plan_id := plan_id,
        status := SubscriptionStatus.active, current_period_start := now,
        current_period_end := some period_end, trial_end := trial_end,
        cancelled_at := none, metadata := [] }
    ({ st with subscriptions := storeSet st.subscriptions newId sub },
     [("subscription.created", EventPayload.subscription sub)], some sub)
  | _, _ => (st, [], none)

/-- Subscription cancellation (`PaymentProcessor.cancel_subscription`,
payment.py lines 324-332): returns false for an unknown id; otherwise sets
CANCELLED, stamps `cancelled_at`, emits `subscription.cancelled`. -/
def cancel_subscription (st : ProcState) (now : Int)
    (subscription_id : String) : ProcState × List Event × Bool :=
  match storeGet? st.subscriptions subscription_id with
  | none => (st, [], false)
  | some sub =>
    let sub1 : Subscription :=
      { sub with status := SubscriptionStatus.cancelled,
                 cancelled_at := some now }
    ({ st with subscriptions := storeSet st.subscriptions subscription_id sub1 },
     [("subscription.cancelled", EventPayload.subscription sub1)], true)

/-- Payment query (`PaymentProcessor.list_payments`, payment.py
lines 344-348): takes the stored payments in insertion order, filters by
customer when the argument is truthy (present and non-empty), and
stable-sorts by creation time descending (Python `sorted` with
`reverse=True`). Read-only: the state is not returned because it is not
changed. -/
def list_payments (st : ProcState) (customer_id : Option String) : List Payment :=
  let payments := st.payments.map (fun p => p.2)
  let filtered :=
    if truthyStr customer_id then
      payments.filter (fun p => p.customer_id = customer_id.getD "")
    else payments
  filtered.mergeSort (fun a b => decide (b.created_at ≤ a.created_at))

/-- Referential invariant of a customer record (spec section 3): a set
default payment method id appears among the ids of the customer's stored
payment methods. -/
def customerInv (c : Customer) : Prop :=
  ∀ d : String, c.default_payment_method = some d →
    d ∈ c.payment_methods.map (fun m => m.id)

/-- Reachable processor states: everything obtainable from the freshly
constructed processor by the mutating operations, for arbitrary fresh ids,
timestamps, arguments and provider outcomes. -/
inductive Reachable : ProcState → Prop
  | init : Reachable initialState
  | createCustomer {st : ProcState} (newId : String) (now : Int)
      (email name : String) (metadata : Dict) (h : Reachable st) :
      Reachable (create_customer st newId now email name metadata).1
  | addPaymentMethod {st : ProcState} (newId customer_id : String)
      (method_type : PaymentMethod) (last_four brand : String)
      (exp_month exp_year : Int) (metadata : Dict) (h : Reachable st) :
      Reachable (add_payment_method st newId customer_id method_type
        last_four brand exp_month exp_year metadata).1
  | createPayment {st st' : ProcState} {evs : List Event} {p : Payment}
      (charge : Customer → Money → String → Bool × Dict)
      (newId : String) (createdAt completedAt : Int) (customer_id : String)
      (amount : Rat) (currency : Currency) (payment_method_id : Option String)
      (description : String) (h : Reachable st)
      (hok : create_payment charge st newId createdAt completedAt customer_id
        amount currency payment_method_id description
        = Except.ok (st', evs, p)) :
      Reachable st'
  | createRefund {st : ProcState} (refundCall : String → Money → Bool × Dict)
      (newId : String) (createdAt : Int) (payment_id : String)
      (amount : Option Rat) (reason : String) (h : Reachable st) :
      Reachable (create_refund refundCall st newId createdAt payment_id
        amount reason).1
  | createPlan {st : ProcState} (newId name : String) (amount : Rat)
      (currency : Currency) (interval : BillingInterval)
      (interval_count trial_days : Int) (features : List String)
      (metadata : Dict) (h : Reachable st) :
      Reachable (create_plan st newId name amount currency interval
        interval_count trial_days features metadata).1
  | createSubscription {st : ProcState} (newId : String) (now : Int)
      (customer_id plan_id : String) (h : Reachable st) :
      Reachable (create_subscription st newId now customer_id plan_id).1
  | cancelSubscription {st : ProcState} (now : Int)
      (subscription_id : String) (h : Reachable st) :
      Reachable (cancel_subscription st now subscription_id).1

/-- Reference provider (`MockPaymentProvider.charge`, payment.py
lines 157-160): always succeeds, returning an opaque provider id. -/
def chargeAlways : Customer → Money → String → Bool × Dict :=
  fun _ _ _ => (true, [("provider_id", "tok_charge")])

/-- Reference provider (`MockPaymentProvider.refund`, payment.py
lines 162-164): always succeeds, returning an opaque provider id. -/
def refundAlways : String → Money → Bool × Dict :=
  fun _ _ => (true, [("provider_id", "tok_refund")])

/-- Adversarial provider outcome: the charge fails and the result maps the
error key to the empty string. -/
def chargeEmptyError : Customer → Money → String → Bool × Dict :=
  fun _ _ _ => (false, [("error", "")])

/-- Demo state: one customer registered. -/
def stDemo0 : ProcState :=
  (create_customer initialState "cus_1" 0 "alice@example.com" "Alice" []).1

/-- Demo state: the customer additionally holds one card payment method,
which became the default. -/
def stDemo1 : ProcState :=
  (add_payment_method stDemo0 "pm_1" "cus_1" PaymentMethod.card "4242"
    "visa" 12 2025 []).1

/-- Demo state: additionally one payment of 5 USD completed through the
always-succeeding provider. -/
def stDemo2 : ProcState :=
  match create_payment chargeAlways stDemo1 "pay_1" 1 2 "cus_1" 5
      Currency.USD none "" with
  | Except.ok out => out.1
  | Except.error _ => stDemo1

theorem emit_eq_map (handlers : List Handler) (data : EventPayload) :
    emit handlers data = handlers.map (fun h => runHandler h data) := by
  induction handlers with
  | nil => rfl
  | cons h rest ih =>
    cases hhd : h data with
    | ok u => simp [emit, runHandler, hhd, ih]
    | error e => simp [emit, runHandler, hhd, ih]

/-- C5: Money.add and Money.subtract fail with the currency-mismatch error
exactly when the currencies differ; with equal currencies they return a
fresh Money carrying the summed (differenced) amount and the shared
currency of both inputs. The operations are pure Lean functions over the
immutable `Money` structure, so neither input is mutated. -/
theorem c5_money_arithmetic (a b : Money) :
    (Money.add a b = Except.error "Currency mismatch" ↔ a.currency ≠ b.currency) ∧
    (Money.subtract a b = Except.error "Currency mismatch" ↔ a.currency ≠ b.currency) ∧
    (a.currency = b.currency →
      Money.add a b
        = Except.ok { amount := a.amount + b.amount, currency := a.currency } ∧
      Money.subtract a b
        = Except.ok { amount := a.amount - b.amount, currency := a.currency } ∧
      ∀ m : Money, Money.add a b = Except.ok m ∨ Money.subtract a b = Except.ok m →
        m.currency = a.currency ∧ m.currency = b.currency) := by
  by_cases h : a.currency = b.currency
  · refine ⟨?_, ?_, ?_⟩
    · simp [Money.add, h]
    · simp [Money.subtract, h]
    · intro _
      refine ⟨by simp [Money.add, h], by simp [Money.subtract, h], ?_⟩
      intro m hm
      rcases hm with hm | hm
      · simp [Money.add, h] at hm
        simp [← hm, h]
      · simp [Money.subtract, h] at hm
        simp [← hm, h]
  · refine ⟨?_, ?_, fun hc => absurd hc h⟩
    · simp [Money.add, h]
    · simp [Money.subtract, h]

/-- C5 witness: concrete instances of both directions at 1 USD, 2 USD and
2 EUR. -/
theorem c5_money_arithmetic_witness :
    Money.add { amount := 1, currency := Currency.USD }
        { amount := 2, currency := Currency.USD }
      = Except.ok { amount := 3, currency := Currency.USD } ∧
    Money.add { amount := 1, currency := Currency.USD }
        { amount := 2, currency := Currency.EUR }
      = Except.error "Currency mismatch" := by
  constructor
  · have h := (c5_money_arithmetic { amount := 1, currency := Currency.USD }
      { amount := 2, currency := Currency.USD }).2.2 (by decide)
    rw [h.1]
    norm_num
  · exact (c5_money_arithmetic { amount := 1, currency := Currency.USD }
      { amount := 2, currency := Currency.EUR }).1.mpr (by decide)

/-- C6: the period-calculation function is a pure function of start,
interval and count: daily adds count days, weekly adds count weeks, monthly
adds 30 * count days and the default (yearly) branch adds 365 * count
days. -/
theorem c6_period_end (start count : Int) :
    calculate_period_end start BillingInterval.daily count
      = start + timedeltaDays count ∧
    calculate_period_end start BillingInterval.weekly count
      = start + timedeltaWeeks count ∧
    calculate_period_end start BillingInterval.monthly count
      = start + timedeltaDays (30 * count) ∧
    calculate_period_end start BillingInterval.yearly count
      = start + timedeltaDays (365 * count) :=
  ⟨rfl, rfl, rfl, rfl⟩

/-- C8: the emission loop invokes every registered handler, synchronously
and in registration order, on the emitted payload; the i-th log entry is
determined by the i-th handler alone, a raising handler is caught (its
message logged) and the loop continues with all subsequent handlers, and
`emit` is a total function, so the triggering operation always completes
normally. -/
theorem c8_emit_isolation (handlers : List Handler) (h0 : Handler)
    (data : EventPayload) :
    (emit handlers data).length = handlers.length ∧
    (∀ i : Nat, (emit handlers data)[i]?
      = (handlers[i]?).map (fun h => runHandler h data)) ∧
    emit (h0 :: handlers) data = runHandler h0 data :: emit handlers data := by
  refine ⟨?_, ?_, ?_⟩
  · rw [emit_eq_map]; exact List.length_map _ _
  · intro i
    simp [emit_eq_map]
  · cases hhd : h0 data <;> simp [emit, runHandler, hhd]

theorem mem_storeSet {α : Type} {m : Store α} {k : String} {v : α}
    {x : String × α} (hx : x ∈ storeSet m k v) : x ∈ m ∨ x = (k, v) := by
  unfold storeSet at hx
  split at hx
  · rcases List.mem_map.mp hx with ⟨p, hp, heq⟩
    by_cases hpk : p.1 = k
    · right; rw [← heq]; simp [hpk]
    · left; rw [← heq]; simp only [hpk, if_false]; exact hp
  · rcases List.mem_append.mp hx with h | h
    · left; exact h
    · right; simpa using h

theorem storeGet?_mem {α : Type} {m : Store α} {k : String} {v : α}
    (h : storeGet? m k = some v) : (k, v) ∈ m := by
  unfold storeGet? at h
  cases hf : m.find? (fun p => p.1 = k) with
  | none => rw [hf] at h; simp at h
  | some p =>
    rw [hf] at h
    simp at h
    have hmem := List.mem_of_find?_eq_some hf
    have hpk := List.find?_some hf
    simp only [decide_eq_true_eq] at hpk
    cases p with
    | mk a b =>
      simp only at hpk h
      rw [← hpk, ← h] at *
      exact hmem

theorem storeGet?_storeSet_self {α : Type} (m : Store α) (k : String) (v : α) :
    storeGet? (storeSet m k v) k = some v := by
  induction m with
  | nil => simp [storeGet?, storeSet, List.find?]
  | cons p rest ih =>
    by_cases hpk : p.1 = k
    · simp [storeGet?, storeSet, hpk, List.find?]
    · by_cases hany : rest.any (fun q => q.1 = k)
      · simp [storeGet?, storeSet, hany, hpk, List.find?_cons] at ih ⊢
        simpa [hpk] using ih
      · simp [storeGet?, storeSet, hany, hpk, List.find?_cons] at ih ⊢
        simpa [hpk] using ih

theorem create_refund_eq_success {refundCall : String → Money → Bool × Dict}
    {st : ProcState} {newId : String} {createdAt : Int} {payment_id : String}
    {amount : Option Rat} {reason : String} {payment : Payment} {res : Dict}
    (hpay : storeGet? st.payments payment_id = some payment)
    (hcompleted : payment.status = PaymentStatus.completed)
    (hrc : refundCall payment_id (refundAmountOf payment amount) = (true, res)) :
    create_refund refundCall st newId createdAt payment_id amount reason
      = ({ st with
            refunds := storeSet st.refunds newId
              { id := newId, payment_id := payment_id,
                amount := refundAmountOf payment amount, reason := reason,
                status := PaymentStatus.completed, created_at := createdAt },
            payments := storeSet st.payments payment_id
              { payment with status := PaymentStatus.refunded } },
         [("refund.created", EventPayload.refund
             { id := newId, payment_id := payment_id,
               amount := refundAmountOf payment amount, reason := reason,
               status := PaymentStatus.pending, created_at := createdAt }),
          ("refund.completed", EventPayload.refund
             { id := newId, payment_id := payment_id,
               amount := refundAmountOf payment amount, reason := reason,
               status := PaymentStatus.completed, created_at := createdAt })],
         some { id := newId, payment_id := payment_id,
                amount := refundAmountOf payment amount, reason := reason,
                status := PaymentStatus.completed, created_at := createdAt }) := by
  simp only [create_refund, hpay, hcompleted, if_true, hrc]

theorem create_refund_eq_failure {refundCall : String → Money → Bool × Dict}
    {st : ProcState} {newId : String} {createdAt : Int} {payment_id : String}
    {amount : Option Rat} {reason : String} {payment : Payment} {res : Dict}
    (hpay : storeGet? st.payments payment_id = some payment)
    (hcompleted : payment.status = PaymentStatus.completed)
    (hrc : refundCall payment_id (refundAmountOf payment amount) = (false, res)) :
    create_refund refundCall st newId createdAt payment_id amount reason
      = ({ st with
            refunds := storeSet st.refunds newId
              { id := newId, payment_id := payment_id,
                amount := refundAmountOf payment amount, reason := reason,
                status := PaymentStatus.failed, created_at := createdAt } },
         [("refund.created", EventPayload.refund
             { id := newId, payment_id := payment_id,
               amount := refundAmountOf payment amount, reason := reason,
               status := PaymentStatus.pending, created_at := createdAt })],
         some { id := newId, payment_id := payment_id,
                amount := refundAmountOf payment amount, reason := reason,
                status := PaymentStatus.failed, created_at := createdAt }) := by
  simp only [create_refund, hpay, hcompleted, if_true, hrc]

/-- C3: create_refund returns the absence signal exactly when the payment
id is unknown or the referenced payment is not in COMPLETED status, and in
that case the processor state is untouched and no event is emitted. -/
theorem c3_refund_requires_completed (refundCall : String → Money → Bool × Dict)
    (st : ProcState) (newId : String) (createdAt : Int) (payment_id : String)
    (amount : Option Rat) (reason : String) :
    ((create_refund refundCall st newId createdAt payment_id amount reason).2.2 = none
      ↔ storeGet? st.payments payment_id = none ∨
        ∃ payment, storeGet? st.payments payment_id = some payment ∧
          payment.status ≠ PaymentStatus.completed) ∧
    ((create_refund refundCall st newId createdAt payment_id amount reason).2.2 = none →
      (create_refund refundCall st newId createdAt payment_id amount reason).1 = st ∧
      (create_refund refundCall st newId createdAt payment_id amount reason).2.1 = []) := by
  cases hf : storeGet? st.payments payment_id with
  | none => simp [create_refund, hf]
  | some payment =>
    by_cases hs : payment.status = PaymentStatus.completed
    · simp only [create_refund, hf, hs, if_true]
      constructor
      · split <;> simp [hf, hs]
      · split <;> simp
    · simp [create_refund, hf, hs]

/-- C3 witness: on the empty processor the refund of an unknown payment id
is refused with no state change and no event. -/
theorem c3_refund_requires_completed_witness :
    (create_refund refundAlways initialState "ref_1" 0 "pay_nope" none "").2.2 = none ∧
    (create_refund refundAlways initialState "ref_1" 0 "pay_nope" none "").1 = initialState ∧
    (create_refund refundAlways initialState "ref_1" 0 "pay_nope" none "").2.1 = [] := by
  have h := c3_refund_requires_completed refundAlways initialState "ref_1" 0
    "pay_nope" none ""
  have hnone : (create_refund refundAlways initialState "ref_1" 0 "pay_nope" none "").2.2 = none :=
    h.1.mpr (Or.inl rfl)
  exact ⟨hnone, (h.2 hnone).1, (h.2 hnone).2⟩

/-- C2: on a payment in COMPLETED status, create_refund creates a refund;
when the provider refund succeeds the refund's final status is COMPLETED,
the originating payment's stored status becomes REFUNDED and the
refund.completed event is emitted exactly once with the final refund;
when the provider refund fails the refund's final status is FAILED, the
payments store is untouched and the originating payment still reads back
as the unchanged COMPLETED record. -/
theorem c2_refund_outcomes {refundCall : String → Money → Bool × Dict}
    {st : ProcState} {newId : String} {createdAt : Int} {payment_id : String}
    {amount : Option Rat} {reason : String} {payment : Payment}
    (hpay : storeGet? st.payments payment_id = some payment)
    (hcompleted : payment.status = PaymentStatus.completed) :
    ∃ st' evs refund,
      create_refund refundCall st newId createdAt payment_id amount reason
        = (st', evs, some refund) ∧
      ((refundCall payment_id (refundAmountOf payment amount)).1 = true →
        refund.status = PaymentStatus.completed ∧
        storeGet? st'.payments payment_id
          = some { payment with status := PaymentStatus.refunded } ∧
        evs.filter (fun e => e.1 = "refund.completed")
          = [("refund.completed", EventPayload.refund refund)]) ∧
      ((refundCall payment_id (refundAmountOf payment amount)).1 = false →
        refund.status = PaymentStatus.failed ∧
        st'.payments = st.payments ∧
        storeGet? st'.payments payment_id = some payment ∧
        payment.status = PaymentStatus.completed) := by
  rcases hrc : refundCall payment_id (refundAmountOf payment amount) with ⟨b, res⟩
  cases b
  · refine ⟨_, _, _, create_refund_eq_failure hpay hcompleted hrc, ?_, ?_⟩
    · intro hb; simp at hb
    · intro _
      exact ⟨rfl, rfl, hpay, hcompleted⟩
  · refine ⟨_, _, _, create_refund_eq_success hpay hcompleted hrc, ?_, ?_⟩
    · intro _
      refine ⟨rfl, storeGet?_storeSet_self _ _ _, ?_⟩
      simp [List.filter]
    · intro hb; simp at hb

/-- C2 witness: refunding the completed 5 USD payment of the demo state
through the always-succeeding provider completes the refund and marks the
payment REFUNDED. -/
theorem c2_refund_outcomes_witness :
    ∃ st' evs refund,
      create_refund refundAlways stDemo2 "ref_1" 3 "pay_1" none ""
        = (st', evs, some refund) ∧
      refund.status = PaymentStatus.completed ∧
      ∃ p', storeGet? st'.payments "pay_1" = some p' ∧
        p'.status = PaymentStatus.refunded := by
  have hpay : ∃ payment, storeGet? stDemo2.payments "pay_1" = some payment ∧
      payment.status = PaymentStatus.completed := by decide
  rcases hpay with ⟨payment, hpay, hcompleted⟩
  obtain ⟨st', evs, refund, heq, hsucc, _⟩ :=
    @c2_refund_outcomes refundAlways stDemo2 "ref_1" 3 "pay_1" none ""
      payment hpay hcompleted
  have h := hsucc rfl
  exact ⟨st', evs, refund, heq, h.1, { payment with status := PaymentStatus.refunded },
    h.2.1, rfl⟩

/-- C4 counterexample to the claim as stated: on the demo state's completed
5 USD payment, create_refund called with the explicitly provided amount 0
produces a refund whose amount is 5, the payment's full amount, not the
provided 0 (Python `amount or payment.amount.amount` treats `Decimal(0)`
as absent). -/
theorem c4_refund_amount_counterexample :
    ∃ st' evs refund,
      create_refund refundAlways stDemo2 "ref_1" 3 "pay_1" (some 0) ""
        = (st', evs, some refund) ∧
      refund.amount.amount = 5 ∧ refund.amount.amount ≠ 0 := by
  refine ⟨_, _, _, rfl, by decide, by decide⟩

/-- C4 (amended): on a COMPLETED payment the refund's amount always carries
the payment's currency; when the amount argument is omitted or is zero the
refund's amount is the payment's full amount, and when a nonzero amount is
provided the refund's amount is exactly that amount. -/
theorem c4_refund_amount {refundCall : String → Money → Bool × Dict}
    {st : ProcState} {newId : String} {createdAt : Int} {payment_id : String}
    {amount : Option Rat} {reason : String} {payment : Payment}
    (hpay : storeGet? st.payments payment_id = some payment)
    (hcompleted : payment.status = PaymentStatus.completed) :
    ∃ st' evs refund,
      create_refund refundCall st newId createdAt payment_id amount reason
        = (st', evs, some refund) ∧
      refund.amount.currency = payment.amount.currency ∧
      (amount = none → refund.amount.amount = payment.amount.amount) ∧
      (∀ a : Rat, amount = some a → a ≠ 0 → refund.amount.amount = a) ∧
      (amount = some 0 → refund.amount.amount = payment.amount.amount) := by
  rcases hrc : refundCall payment_id (refundAmountOf payment amount) with ⟨b, res⟩
  have hprops : (refundAmountOf payment amount).currency = payment.amount.currency ∧
      (amount = none → (refundAmountOf payment amount).amount = payment.amount.amount) ∧
      (∀ a : Rat, amount = some a → a ≠ 0 →
        (refundAmountOf payment amount).amount = a) ∧
      (amount = some 0 → (refundAmountOf payment amount).amount = payment.amount.amount) := by
    refine ⟨rfl, ?_, ?_, ?_⟩
    · intro ha; subst ha; rfl
    · intro a ha hz; subst ha; simp [refundAmountOf, hz]
    · intro ha; subst ha; simp [refundAmountOf]
  cases b
  · exact ⟨_, _, _, create_refund_eq_failure hpay hcompleted hrc,
      hprops.1, hprops.2.1, hprops.2.2.1, hprops.2.2.2⟩
  · exact ⟨_, _, _, create_refund_eq_success hpay hcompleted hrc,
      hprops.1, hprops.2.1, hprops.2.2.1, hprops.2.2.2⟩

/-- C4 witness: an omitted amount defaults to the payment's full 5 USD. -/
theorem c4_refund_amount_witness :
    ∃ st' evs refund,
      create_refund refundAlways stDemo2 "ref_1" 3 "pay_1" none ""
        = (st', evs, some refund) ∧
      refund.amount.currency = Currency.USD ∧
      refund.amount.amount = 5 := by
  have hpay : ∃ payment, storeGet? stDemo2.payments "pay_1" = some payment ∧
      payment.status = PaymentStatus.completed ∧
      payment.amount.currency = Currency.USD ∧ payment.amount.amount = 5 := by decide
  rcases hpay with ⟨payment, hpay, hcompleted, hcur, hamt⟩
  obtain ⟨st', evs, refund, heq, hc, hnone, _, _⟩ :=
    @c4_refund_amount refundAlways stDemo2 "ref_1" 3 "pay_1" none ""
      payment hpay hcompleted
  exact ⟨st', evs, refund, heq, hcur ▸ hc, hamt ▸ hnone rfl⟩

theorem create_payment_eq_success {charge : Customer → Money → String → Bool × Dict}
    {st : ProcState} {newId : String} {createdAt completedAt : Int}
    {customer_id : String} {amount : Rat} {currency : Currency}
    {payment_method_id : Option String} {description : String}
    {customer : Customer} {pm : String} {res : Dict}
    (hcust : storeGet? st.customers customer_id = some customer)
    (hpm : (if truthyStr payment_method_id then payment_method_id
            else customer.default_payment_method) = some pm)
    (hne : pm ≠ "")
    (hch : charge customer { amount := amount, currency := currency } pm
      = (true, res)) :
    create_payment charge st newId createdAt completedAt customer_id amount
        currency payment_method_id description
      = Except.ok
          ({ st with
              payments := storeSet st.payments newId
                { id := newId, customer_id := customer_id,
                  amount := { amount := amount, currency := currency },
                  status := PaymentStatus.completed,
                  payment_method_id := some pm, description := description,
                  metadata := dictUpdate [] res, created_at := createdAt,
                  completed_at := some completedAt, error := none } },
           [("payment.created", EventPayload.payment
              { id := newId, customer_id := customer_id,
                amount := { amount := amount, currency := currency },
                status := PaymentStatus.pending,
                payment_method_id := some pm, description := description,
                metadata := [], created_at := createdAt,
                completed_at := none, error := none }),
            ("payment.completed", EventPayload.payment
              { id := newId, customer_id := customer_id,
                amount := { amount := amount, currency := currency },
                status := PaymentStatus.completed,
                payment_method_id := some pm, description := description,
                metadata := dictUpdate [] res, created_at := createdAt,
                completed_at := some completedAt, error := none })],
           { id := newId, customer_id := customer_id,
             amount := { amount := amount, currency := currency },
             status := PaymentStatus.completed,
             payment_method_id := some pm, description := description,
             metadata := dictUpdate [] res, created_at := createdAt,
             completed_at := some completedAt, error := none }) := by
  have htr : truthyStr (some pm) = true := by simp [truthyStr, hne]
  simp only [create_payment, hcust, hpm, htr, if_true, Option.getD_some, hch]

theorem create_payment_eq_failure {charge : Customer → Money → String → Bool × Dict}
    {st : ProcState} {newId : String} {createdAt completedAt : Int}
    {customer_id : String} {amount : Rat} {currency : Currency}
    {payment_method_id : Option String} {description : String}
    {customer : Customer} {pm : String} {res : Dict}
    (hcust : storeGet? st.customers customer_id = some customer)
    (hpm : (if truthyStr payment_method_id then payment_method_id
            else customer.default_payment_method) = some pm)
    (hne : pm ≠ "")
    (hch : charge customer { amount := amount, currency := currency } pm
      = (false, res)) :
    create_payment charge st newId createdAt completedAt customer_id amount
        currency payment_method_id description
      = Except.ok
          ({ st with
              payments := storeSet st.payments newId
                { id := newId, customer_id := customer_id,
                  amount := { amount := amount, currency := currency },
                  status := PaymentStatus.failed,
                  payment_method_id := some pm, description := description,
                  metadata := [], created_at := createdAt,
                  completed_at := none,
                  error := some ((dictGet? res "error").getD "Payment failed") } },
           [("payment.created", EventPayload.payment
              { id := newId, customer_id := customer_id,
                amount := { amount := amount, currency := currency },
                status := PaymentStatus.pending,
                payment_method_id := some pm, description := description,
                metadata := [], created_at := createdAt,
                completed_at := none, error := none }),
            ("payment.failed", EventPayload.payment
              { id := newId, customer_id := customer_id,
                amount := { amount := amount, currency := currency },
                status := PaymentStatus.failed,
                payment_method_id := some pm, description := description,
                metadata := [], created_at := createdAt,
                completed_at := none,
                error := some ((dictGet? res "error").getD "Payment failed") })],
           { id := newId, customer_id := customer_id,
             amount := { amount := amount, currency := currency },
             status := PaymentStatus.failed,
             payment_method_id := some pm, description := description,
             metadata := [], created_at := createdAt,
             completed_at := none,
             error := some ((dictGet? res "error").getD "Payment failed") }) := by
  have htr : truthyStr (some pm) = true := by simp [truthyStr, hne]
  simp only [create_payment, hcust, hpm, htr, if_true, Option.getD_some, hch]

/-- C1 counterexample to the claim as stated: a validated create_payment
whose provider charge fails reporting the error value "" produces a FAILED
payment whose error field is the empty string, so the error field is not
non-empty (`result.get("error", "Payment failed")` returns the reported
empty string rather than the default message). -/
theorem c1_payment_outcomes_counterexample :
    ∃ st' evs p,
      create_payment chargeEmptyError stDemo1 "pay_2" 1 2 "cus_1" 5
          Currency.USD (some "pm_x") "" = Except.ok (st', evs, p) ∧
      p.status = PaymentStatus.failed ∧ p.error = some "" := by
  refine ⟨_, _, _, rfl, by decide, by decide⟩

/-- C1 (amended): for a validated create_payment (customer found, resolved
truthy payment-method id): on provider success the returned payment is
exactly COMPLETED with `completed_at` stamped, the provider result merged
into the payment's metadata, and the payment.completed event fired exactly
once with the final record (and payment.failed not at all); on provider
failure the returned payment is exactly FAILED with `completed_at` unset,
the error field set to the provider's reported error value when one is
present and to the default message "Payment failed" otherwise (so it is
non-empty unless the provider reports an empty error string), and the
payment.failed event fired exactly once with the final record (and
payment.completed not at all). -/
theorem c1_payment_outcomes {charge : Customer → Money → String → Bool × Dict}
    {st : ProcState} {newId : String} {createdAt completedAt : Int}
    {customer_id : String} {amount : Rat} {currency : Currency}
    {payment_method_id : Option String} {description : String}
    {customer : Customer} {pm : String}
    (hcust : storeGet? st.customers customer_id = some customer)
    (hpm : (if truthyStr payment_method_id then payment_method_id
            else customer.default_payment_method) = some pm)
    (hne : pm ≠ "") :
    ∃ st' evs p,
      create_payment charge st newId createdAt completedAt customer_id amount
          currency payment_method_id description = Except.ok (st', evs, p) ∧
      (∀ res, charge customer { amount := amount, currency := currency } pm
          = (true, res) →
        p.status = PaymentStatus.completed ∧
        p.completed_at = some completedAt ∧
        p.metadata = dictUpdate [] res ∧
        evs.filter (fun e => e.1 = "payment.completed")
          = [("payment.completed", EventPayload.payment p)] ∧
        evs.filter (fun e => e.1 = "payment.failed") = []) ∧
      (∀ res, charge customer { amount := amount, currency := currency } pm
          = (false, res) →
        p.status = PaymentStatus.failed ∧
        p.completed_at = none ∧
        p.error = some ((dictGet? res "error").getD "Payment failed") ∧
        p.error ≠ none ∧
        (dictGet? res "error" = none → p.error = some "Payment failed") ∧
        (∀ e, dictGet? res "error" = some e → p.error = some e) ∧
        evs.filter (fun e => e.1 = "payment.failed")
          = [("payment.failed", EventPayload.payment p)] ∧
        evs.filter (fun e => e.1 = "payment.completed") = []) := by
  rcases hch : charge customer { amount := amount, currency := currency } pm
    with ⟨b, res⟩
  cases b
  · refine ⟨_, _, _, create_payment_eq_failure hcust hpm hne hch, ?_, ?_⟩
    · intro res2 h2
      simp at h2
    · intro res2 h2
      obtain rfl : res = res2 := by
        have := congrArg Prod.snd h2
        simpa using this
      refine ⟨rfl, rfl, rfl, by simp, ?_, ?_, ?_, ?_⟩
      · intro h3; simp [h3]
      · intro e h3; simp [h3]
      · simp [List.filter]
      · simp [List.filter]
  · refine ⟨_, _, _, create_payment_eq_success hcust hpm hne hch, ?_, ?_⟩
    · intro res2 h2
      obtain rfl : res = res2 := by
        have := congrArg Prod.snd h2
        simpa using this
      refine ⟨rfl, rfl, rfl, ?_, ?_⟩
      · simp [List.filter]
      · simp [List.filter]
    · intro res2 h2
      simp at h2

/-- C1 witness: the demo customer's default card method resolves, the
always-succeeding provider completes the charge, and the returned payment
is COMPLETED with its completion timestamp and the provider id merged into
its metadata. -/
theorem c1_payment_outcomes_witness :
    ∃ st' evs p,
      create_payment chargeAlways stDemo1 "pay_1" 1 2 "cus_1" 5 Currency.USD
          none "" = Except.ok (st', evs, p) ∧
      p.status = PaymentStatus.completed ∧
      p.completed_at = some 2 ∧
      p.metadata = [("provider_id", "tok_charge")] := by
  have hcust : ∃ c, storeGet? stDemo1.customers "cus_1" = some c ∧
      (if truthyStr none then (none : Option String)
       else c.default_payment_method) = some "pm_1" := by decide
  rcases hcust with ⟨c, hc, hpm⟩
  obtain ⟨st', evs, p, heq, hsucc, _⟩ :=
    @c1_payment_outcomes chargeAlways stDemo1 "pay_1" 1 2 "cus_1" 5
      Currency.USD none "" c "pm_1" hc hpm (by decide)
  have h := hsucc [("provider_id", "tok_charge")] rfl
  exact ⟨st', evs, p, heq, h.1, h.2.1, by rw [h.2.2.1]; decide⟩

/-- C10: create_payment performs no membership check on an explicitly
supplied non-empty payment-method id: even when the id names none of the
customer's stored methods, the call succeeds, the created payment carries
that arbitrary id, and the provider charge is invoked with it (the final
status is COMPLETED exactly when that charge call succeeds). -/
theorem c10_arbitrary_method_id {charge : Customer → Money → String → Bool × Dict}
    {st : ProcState} {newId : String} {createdAt completedAt : Int}
    {customer_id : String} {amount : Rat} {currency : Currency}
    {pm : String} {description : String} {customer : Customer}
    (hcust : storeGet? st.customers customer_id = some customer)
    (hne : pm ≠ "")
    (_hnotmem : pm ∉ customer.payment_methods.map (fun m => m.id)) :
    ∃ st' evs p,
      create_payment charge st newId createdAt completedAt customer_id amount
          currency (some pm) description = Except.ok (st', evs, p) ∧
      p.payment_method_id = some pm ∧
      (p.status = PaymentStatus.completed ↔
        (charge customer { amount := amount, currency := currency } pm).1 = true) := by
  have hpm : (if truthyStr (some pm) then some pm
              else customer.default_payment_method) = some pm := by
    simp [truthyStr, hne]
  rcases hch : charge customer { amount := amount, currency := currency } pm
    with ⟨b, res⟩
  cases b
  · exact ⟨_, _, _, create_payment_eq_failure hcust hpm hne hch, rfl, by simp⟩
  · exact ⟨_, _, _, create_payment_eq_success hcust hpm hne hch, rfl, by simp⟩

/-- C10 witness: the demo customer before any payment method is added has
an empty method list, yet a payment with the unknown id pm_ghost is
accepted and completed through the provider. -/
theorem c10_arbitrary_method_id_witness :
    ∃ st' evs p,
      create_payment chargeAlways stDemo0 "pay_9" 1 2 "cus_1" 5 Currency.USD
          (some "pm_ghost") "" = Except.ok (st', evs, p) ∧
      p.payment_method_id = some "pm_ghost" ∧
      p.status = PaymentStatus.completed := by
  have hcust : ∃ c, storeGet? stDemo0.customers "cus_1" = some c ∧
      c.payment_methods = [] := by decide
  rcases hcust with ⟨c, hc, hempty⟩
  obtain ⟨st', evs, p, heq, hid, hiff⟩ :=
    @c10_arbitrary_method_id chargeAlways stDemo0 "pay_9" 1 2 "cus_1" 5
      Currency.USD "pm_ghost" "" c hc (by decide) (by rw [hempty]; simp)
  exact ⟨st', evs, p, heq, hid, hiff.mpr rfl⟩

/-- C7 counterexample to the claim as stated: the demo state holds exactly
one payment and it belongs to customer cus_1, yet list_payments called with
the given customer_id "" returns that payment — whose customer_id differs
from the given one — because `if customer_id:` treats the empty string as
no filter rather than as a filter value. -/
theorem c7_list_payments_counterexample :
    ∃ p, p ∈ list_payments stDemo2 (some "") ∧ p.customer_id ≠ "" := by
  have hfalse : truthyStr (some "") = false := rfl
  unfold list_payments
  simp only [hfalse, Bool.false_eq_true, if_false, List.mem_mergeSort]
  decide

/-- C7 (amended): list_payments is a pure read (a function of the state
that leaves it unchanged) whose result is always sorted by created_at
descending; a given non-empty customer_id filters to exactly the payments
whose customer_id equals it (as a permutation of the filtered store, so
with the right multiplicities), while omitting the argument — or passing
the empty string, which the code's truthiness test treats as absent —
yields all stored payments. -/
theorem c7_list_payments_sorted (st : ProcState) (customer_id : Option String) :
    List.Pairwise (fun a b : Payment => b.created_at ≤ a.created_at)
      (list_payments st customer_id) ∧
    (∀ c, customer_id = some c → c ≠ "" →
      (list_payments st customer_id).Perm
        ((st.payments.map (fun p => p.2)).filter
          (fun p => p.customer_id = c))) ∧
    ((customer_id = none ∨ customer_id = some "") →
      (list_payments st customer_id).Perm (st.payments.map (fun p => p.2))) := by
  refine ⟨?_, ?_, ?_⟩
  · unfold list_payments
    refine List.Pairwise.imp (fun hab => of_decide_eq_true hab) ?_
    exact List.sorted_mergeSort
      (fun a b c hab hbc => by
        simp only [decide_eq_true_eq] at hab hbc ⊢
        exact le_trans hbc hab)
      (fun a b => by
        simp only [Bool.or_eq_true, decide_eq_true_eq]
        exact le_total b.created_at a.created_at)
      _
  · intro c hc hne
    subst hc
    have htr : truthyStr (some c) = true := by simp [truthyStr, hne]
    unfold list_payments
    simp only [htr, if_true, Option.getD_some]
    exact List.mergeSort_perm _ _
  · intro hc
    unfold list_payments
    rcases hc with rfl | rfl
    · exact List.mergeSort_perm _ _
    · have hfalse : truthyStr (some "") = false := rfl
      simp only [hfalse, Bool.false_eq_true, if_false]
      exact List.mergeSort_perm _ _

/-- C7 witness: filtering the demo state by cus_1 yields a sorted
permutation of that customer's stored payments. -/
theorem c7_list_payments_sorted_witness :
    List.Pairwise (fun a b : Payment => b.created_at ≤ a.created_at)
      (list_payments stDemo2 (some "cus_1")) ∧
    (list_payments stDemo2 (some "cus_1")).Perm
      ((stDemo2.payments.map (fun p => p.2)).filter
        (fun p => p.customer_id = "cus_1")) := by
  have h := c7_list_payments_sorted stDemo2 (some "cus_1")
  exact ⟨h.1, h.2.1 "cus_1" rfl (by decide)⟩

theorem create_payment_ok_customers {charge : Customer → Money → String → Bool × Dict}
    {st : ProcState} {newId : String} {createdAt completedAt : Int}
    {customer_id : String} {amount : Rat} {currency : Currency}
    {payment_method_id : Option String} {description : String}
    {st' : ProcState} {evs : List Event} {p : Payment}
    (hok : create_payment charge st newId createdAt completedAt customer_id
      amount currency payment_method_id description = Except.ok (st', evs, p)) :
    st'.customers = st.customers := by
  unfold create_payment at hok
  dsimp only at hok
  repeat' split at hok
  all_goals
    first
      | exact Except.noConfusion hok
      | (injection hok with h; cases h; rfl)

theorem create_refund_fst_customers (refundCall : String → Money → Bool × Dict)
    (st : ProcState) (newId : String) (createdAt : Int) (payment_id : String)
    (amount : Option Rat) (reason : String) :
    (create_refund refundCall st newId createdAt payment_id amount
      reason).1.customers = st.customers := by
  unfold create_refund
  dsimp only
  repeat' split
  all_goals rfl

theorem create_subscription_fst_customers (st : ProcState) (newId : String)
    (now : Int) (customer_id plan_id : String) :
    (create_subscription st newId now customer_id plan_id).1.customers
      = st.customers := by
  unfold create_subscription
  split <;> rfl

theorem cancel_subscription_fst_customers (st : ProcState) (now : Int)
    (subscription_id : String) :
    (cancel_subscription st now subscription_id).1.customers
      = st.customers := by
  unfold cancel_subscription
  split <;> rfl

/-- C9: in every reachable processor state, every stored customer whose
default_payment_method is set has it equal to the id of one of its stored
payment methods; and add_payment_method on an existing customer with no
default makes the newly added method — whose id is the fresh id — the
default, appending it to the customer's method list. -/
theorem c9_default_method_invariant :
    (∀ st : ProcState, Reachable st → ∀ kc ∈ st.customers, customerInv kc.2) ∧
    (∀ (st : ProcState) (newId customer_id : String)
        (method_type : PaymentMethod) (last_four brand : String)
        (exp_month exp_year : Int) (metadata : Dict) (customer : Customer),
      storeGet? st.customers customer_id = some customer →
      customer.default_payment_method = none →
      ∃ c1, storeGet? ((add_payment_method st newId customer_id method_type
          last_four brand exp_month exp_year metadata).1).customers customer_id
          = some c1 ∧
        c1.default_payment_method = some newId ∧
        ∃ m, (add_payment_method st newId customer_id method_type last_four
            brand exp_month exp_year metadata).2 = some m ∧
          m.id = newId ∧
          c1.payment_methods = customer.payment_methods ++ [m]) := by
  constructor
  · intro st hreach
    induction hreach with
    | init => intro kc hkc; simp [initialState] at hkc
    | createCustomer newId now email name metadata h ih =>
      intro kc hkc
      simp only [create_customer] at hkc
      rcases mem_storeSet hkc with hmem | heq
      · exact ih kc hmem
      · subst heq
        intro d hd
        simp at hd
    | addPaymentMethod newId customer_id mt lf b em ey md h ih =>
      rename_i st0
      intro kc hkc
      rcases hf : storeGet? st0.customers customer_id with _ | customer
      · simp only [add_payment_method, hf] at hkc
        exact ih kc hkc
      · simp only [add_payment_method, hf] at hkc
        rcases mem_storeSet hkc with hmem | heq
        · exact ih kc hmem
        · subst heq
          intro d hd
          simp only at hd ⊢
          by_cases hdef : truthyStr customer.default_payment_method = true
          · rw [if_pos hdef] at hd
            have hold := ih (customer_id, customer) (storeGet?_mem hf) d hd
            simp only [List.map_append, List.mem_append]
            exact Or.inl hold
          · rw [if_neg hdef] at hd
            injection hd with hd
            subst hd
            simp [List.map_append]
    | createPayment charge newId createdAt completedAt customer_id amount
        currency payment_method_id description h hok ih =>
      intro kc hkc
      rw [create_payment_ok_customers hok] at hkc
      exact ih kc hkc
    | createRefund refundCall newId createdAt payment_id amount reason h ih =>
      intro kc hkc
      rw [create_refund_fst_customers] at hkc
      exact ih kc hkc
    | createPlan newId name amount currency interval interval_count
        trial_days features metadata h ih =>
      intro kc hkc
      exact ih kc hkc
    | createSubscription newId now customer_id plan_id h ih =>
      intro kc hkc
      rw [create_subscription_fst_customers] at hkc
      exact ih kc hkc
    | cancelSubscription now subscription_id h ih =>
      intro kc hkc
      rw [cancel_subscription_fst_customers] at hkc
      exact ih kc hkc
  · intro st newId customer_id mt lf b em ey md customer hf hdef
    simp only [add_payment_method, hf, hdef, truthyStr]
    exact ⟨_, storeGet?_storeSet_self _ _ _, rfl, _, rfl, rfl, rfl⟩

/-- C9 witness: in the reachable demo state whose single customer received
one payment method, the customer's default references a stored method. -/
theorem c9_default_method_invariant_witness :
    ∃ kc : String × Customer, kc ∈ stDemo1.customers ∧
      ∀ d, kc.2.default_payment_method = some d →
        d ∈ kc.2.payment_methods.map (fun m => m.id) := by
  have hreach : Reachable stDemo1 :=
    Reachable.addPaymentMethod "pm_1" "cus_1" PaymentMethod.card "4242"
      "visa" 12 2025 []
      (Reachable.createCustomer "cus_1" 0 "alice@example.com" "Alice" []
        Reachable.init)
  have hkc : (("cus_1",
      { id := "cus_1", email := "alice@example.com", name := "Alice",
        payment_methods :=
          [{ id := "pm_1", type := PaymentMethod.card, last_four := "4242",
             brand := "visa", exp_month := 12, exp_year := 2025,
             metadata := [] }],
        default_payment_method := some "pm_1", metadata := [],
        created_at := 0 }) : String × Customer) ∈ stDemo1.customers := by
    decide
  exact ⟨_, hkc, c9_default_method_invariant.1 stDemo1 hreach _ hkc⟩

end RoadPayment
